import Mathlib

/-!
Shallow embedding of the table/QML demos of the python_qt_cookbook
repository (src/app_table_people.py, src/app_table_word_pairs.py,
src/app_qml/app_qml_simple.py), with theorems settling the claims
about them.  Python strings are Lean Strings (the string helpers model
CPython behaviour on ASCII text, which is all the demos use); Python
exceptions are modelled with Except; Python None results are modelled
with Option.
-/

/-- Python exception kinds that the embedded code can raise. -/
inductive PyExc where
  | valueError
  | keyError
  | indexError
  | attributeError
  | typeError
  | ioError
deriving DecidableEq, Repr

/-- Model of CPython str.lower on one character (ASCII range, which is
all the demo data uses); Char.toLower lowers exactly the letters A-Z. -/
def pyLowerChar (c : Char) : Char := c.toLower

/-- Model of CPython str.lower: lowercase every character. -/
def pyLower (s : String) : String := String.mk (s.data.map pyLowerChar)

/-- Model of CPython str.startswith: prefix test on the characters. -/
def pyStartsWith (s pre : String) : Bool := List.isPrefixOf pre.data s.data

/-- Model of CPython str.strip with no arguments (whitespace on the
ASCII characters the demos use): drop whitespace from both ends. -/
def pyStripChars (l : List Char) : List Char :=
  ((l.dropWhile Char.isWhitespace).reverse.dropWhile Char.isWhitespace).reverse

/-- Model of CPython str.strip with no arguments. -/
def pyStrip (s : String) : String := String.mk (pyStripChars s.data)

/-- Truthiness of re.match applied to the raw pattern [0-9]+ : the
anchored match succeeds exactly when the string starts with an ASCII
digit (it does NOT require the whole string to be digits). -/
def reMatchDigits (s : String) : Bool :=
  match s.data with
  | [] => false
  | c :: _ => c.isDigit

/-- Digit-only test (nonempty and every character an ASCII digit),
the property the specification describes for numeric-column input. -/
def digitOnly (s : String) : Bool :=
  !s.data.isEmpty && s.data.all Char.isDigit

/-- Tail of a CPython int literal after its first digit: a sequence of
digits where single underscores may separate digits (no leading,
trailing or doubled underscore). -/
def pyIntTail : List Char → Bool
  | [] => true
  | c :: rest =>
      if c = '_' then
        match rest with
        | [] => false
        | d :: rest2 => d.isDigit && pyIntTail rest2
      else c.isDigit && pyIntTail rest

/-- Numeric value of a digit-and-underscore sequence (underscores are
ignored, as CPython int does). -/
def pyDigitsValue : List Char → Nat → Nat
  | [], acc => acc
  | c :: rest, acc =>
      if c = '_' then pyDigitsValue rest acc
      else pyDigitsValue rest (acc * 10 + (c.toNat - 48))

/-- Unsigned part of CPython int parsing: nonempty, first character a
digit, rest digits with single separating underscores. -/
def pyIntCore (l : List Char) : Option Nat :=
  match l with
  | [] => none
  | c :: rest =>
      if c.isDigit && pyIntTail rest then some (pyDigitsValue (c :: rest) 0)
      else none

/-- Model of CPython int applied to an already-stripped ASCII string:
an optional sign followed by digits with single separating
underscores; none models a ValueError. -/
def pyIntParse (s : String) : Option Int :=
  match s.data with
  | '+' :: rest => (pyIntCore rest).map (fun n => (n : Int))
  | '-' :: rest => (pyIntCore rest).map (fun n => -(n : Int))
  | l => (pyIntCore l).map (fun n => (n : Int))

/-- Model of CPython str applied to an int: decimal rendering with a
leading minus sign for negative values. -/
def pyStrOfInt (i : Int) : String :=
  if i < 0 then String.mk ('-' :: (toString i.natAbs).data) else toString i.natAbs

/-- Python string less-than: lexicographic comparison by code point. -/
def pyStrLtChars : List Char → List Char → Bool
  | [], [] => false
  | [], _ :: _ => true
  | _ :: _, [] => false
  | a :: as, b :: bs => a < b || (a == b && pyStrLtChars as bs)

/-- Python string less-than on Strings. -/
def pyStrLt (a b : String) : Bool := pyStrLtChars a.data b.data

/-- One hex digit (lowercase, as bytes.hex produces). -/
def hexDigitChar (n : Nat) : Char :=
  if n < 10 then Char.ofNat (48 + n) else Char.ofNat (87 + n)

/-- Hex rendering of one byte: two lowercase hex digits. -/
def byteHexChars (b : Nat) : List Char :=
  [hexDigitChar (b / 16), hexDigitChar (b % 16)]

/-- Model of bytes.hex: concatenate the two-digit rendering of every
byte, in order. -/
def bytesHexChars (bs : List Nat) : List Char :=
  bs.flatMap byteHexChars

instance {α β : Type} [DecidableEq α] [DecidableEq β] : DecidableEq (Except α β) :=
  fun a b =>
    match a, b with
    | .ok x, .ok y =>
        if h : x = y then isTrue (by rw [h]) else isFalse (by simp [h])
    | .error x, .error y =>
        if h : x = y then isTrue (by rw [h]) else isFalse (by simp [h])
    | .ok _, .error _ => isFalse (by simp)
    | .error _, .ok _ => isFalse (by simp)

/-- Console output produced by BackendObject.pronk, one tag per print
call (the exact message text is irrelevant to the claims). -/
inductive ConsoleMsg where
  | received (path : String)
  | fileWasEmpty
  | traceback
  | couldNotRead
  | fileDoesNotExist
deriving DecidableEq, Repr

/-- Environment seen by BackendObject.pronk for the path it is given:
whether os.path.exists holds, and what opening-and-reading the file
yields (bytes, or an exception of any kind). -/
structure FileSystem where
  fileExists : Bool
  readBytes : Except PyExc (List Nat)
deriving DecidableEq, Repr

/-- Model of the scheme stripping at the start of pronk: drop a
leading file:/// if present (len of file:/// is 8). -/
def stripFileScheme (path : String) : String :=
  if pyStartsWith path ("file:///") then String.mk (path.data.drop 8) else path

/-- Model of BackendObject.pronk from src/app_qml/app_qml_simple.py.
Returns the Python return value (none models Python None, reached by
falling off the end of the function in the except branch) together
with the list of console messages printed.  The broad `except
Exception` is modelled by handling every PyExc alike. -/
def pronk (fs : FileSystem) (path0 : String) : Option String × List ConsoleMsg :=
  let path := stripFileScheme path0
  if fs.fileExists then
    match fs.readBytes with
    | .ok data =>
        (some (String.mk ((bytesHexChars data).take 64)),
         [ConsoleMsg.received path] ++
           (if data.isEmpty then [ConsoleMsg.fileWasEmpty] else []))
    | .error _ =>
        (none,
         [ConsoleMsg.received path, ConsoleMsg.traceback, ConsoleMsg.couldNotRead])
  else
    (some (""),
     [ConsoleMsg.received path, ConsoleMsg.fileDoesNotExist])

/-- Qt display role value, Qt.DisplayRole = 0; other roles are the
other naturals. -/
def DisplayRole : Nat := 0

/-- Model of a QModelIndex: a row and a column, as Qt ints (the null
index has row and column -1). -/
structure QModelIndex where
  row : Int
  col : Int
deriving DecidableEq, Repr

/-- Validity of an index against a model with the given row and column
counts: Qt indexes produced by a model are valid exactly when both
coordinates are in range. -/
def QModelIndex.isValid (idx : QModelIndex) (rows cols : Nat) : Bool :=
  0 ≤ idx.row && idx.row < (rows : Int) && 0 ≤ idx.col && idx.col < (cols : Int)

/-- Orientation of a header query. -/
inductive QtOrientation where
  | horizontal
  | vertical
deriving DecidableEq, Repr

/-- A value held in a Person attribute: the name attributes hold
Python strs, age and height_mm hold Python ints. -/
inductive FieldVal where
  | str (s : String)
  | int (n : Int)
deriving DecidableEq, Repr

/-- Model of CPython str applied to an attribute value. -/
def pyStr : FieldVal → String
  | .str s => s
  | .int n => pyStrOfInt n

/-- Model of the Person class of src/app_table_people.py. -/
structure Person where
  first : String
  middle : String
  last : String
  age : Int
  height_mm : Int
deriving DecidableEq, Repr

/-- Model of getattr(person, name) for the five attribute names the
attrib_key dict can produce; none models an AttributeError. -/
def Person.getattr (p : Person) (name : String) : Option FieldVal :=
  if name = ("first") then some (.str p.first)
  else if name = ("middle") then some (.str p.middle)
  else if name = ("last") then some (.str p.last)
  else if name = ("age") then some (.int p.age)
  else if name = ("height_mm") then some (.int p.height_mm)
  else none

/-- The attribute of a Person occupying a given column, per the
attrib_key mapping (composition of attrib_key and getattr). -/
def Person.getField (p : Person) (c : Nat) : Option FieldVal :=
  if c = 0 then some (.str p.first)
  else if c = 1 then some (.str p.middle)
  else if c = 2 then some (.str p.last)
  else if c = 3 then some (.int p.age)
  else if c = 4 then some (.int p.height_mm)
  else none

/-- Model of setattr(person, attrib_name, stripped) on the name
columns (columns 0, 1, 2 per attrib_key); other columns never reach
this assignment in the source. -/
def Person.setFieldStr (p : Person) (c : Nat) (s : String) : Person :=
  if c = 0 then { p with first := s }
  else if c = 1 then { p with middle := s }
  else if c = 2 then { p with last := s }
  else p

/-- Model of setattr(person, attrib_name, int(stripped)) on the
numeric columns (columns 3 and 4 per attrib_key); other columns never
reach this assignment in the source. -/
def Person.setFieldInt (p : Person) (c : Nat) (n : Int) : Person :=
  if c = 3 then { p with age := n }
  else if c = 4 then { p with height_mm := n }
  else p

namespace PeopleModel

/-- Column constant PeopleModel.FIRST_NAME. -/
def FIRST_NAME : Nat := 0

/-- Column constant PeopleModel.AGE. -/
def AGE : Nat := 3

/-- Column constant PeopleModel.HEIGHT_MM. -/
def HEIGHT_MM : Nat := 4

/-- Model of the attrib_key dict: column number to (attribute name,
display name); none models a KeyError on lookup. -/
def attrib_key (c : Nat) : Option (String × String) :=
  if c = 0 then some (("first"), ("First Name"))
  else if c = 1 then some (("middle"), ("Middle Name"))
  else if c = 2 then some (("last"), ("Last Name"))
  else if c = 3 then some (("age"), ("Age"))
  else if c = 4 then some (("height_mm"), ("Height (mm)"))
  else none

/-- Model of PeopleModel.rowCount (the parent argument is unused in
the source): the length of the stored people sequence. -/
def rowCount (model_data : List Person) : Nat := model_data.length

/-- Model of PeopleModel.columnCount (the parent argument is unused in
the source): the size of the attrib_key dict. -/
def columnCount : Nat := 5

/-- Model of PeopleModel.data.  Returns Except to record that a raise
is impossible on the paths actually taken: the ok none value models
the Python return None, errors model IndexError/KeyError/impossible
AttributeError on out-of-range access. -/
def data (model_data : List Person) (index : QModelIndex) (role : Nat) :
    Except PyExc (Option String) :=
  if index.isValid model_data.length columnCount then
    if role = DisplayRole then
      match model_data[index.row.toNat]? with
      | none => .error .indexError
      | some person =>
          match attrib_key index.col.toNat with
          | none => .error .keyError
          | some (attrib_name, _) =>
              match person.getattr attrib_name with
              | none => .error .attributeError
              | some v => .ok (some (pyStr v))
    else .ok none
  else .ok none

/-- Model of PeopleModel.headerData: row number for the vertical
header, attrib_key display name for the horizontal header, Python
None (ok none) for any other role. -/
def headerData (sect : Nat) (orientation : QtOrientation) (role : Nat) :
    Except PyExc (Option String) :=
  if role = DisplayRole then
    match orientation with
    | .vertical => .ok (some (toString sect))
    | .horizontal =>
        match attrib_key sect with
        | none => .error .keyError
        | some (_, display_val) => .ok (some display_val)
  else .ok none

/-- Model of PeopleModel.setData.  Returns the Python return value
together with the people sequence after the in-place mutation; errors
model exceptions escaping the call (in particular the ValueError from
int(stripped) when the regex prefix match succeeded on a non-numeric
string). -/
def setData (model_data : List Person) (index : QModelIndex) (value : String)
    (role : Nat) : Except PyExc (Bool × List Person) :=
  if index.isValid model_data.length columnCount then
    if role = DisplayRole then
      match model_data[index.row.toNat]? with
      | none => .error .indexError
      | some person =>
          match attrib_key index.col.toNat with
          | none => .error .keyError
          | some (_, _) =>
              let stripped := pyStrip value
              if index.col.toNat = AGE ∨ index.col.toNat = HEIGHT_MM then
                if reMatchDigits stripped then
                  match pyIntParse stripped with
                  | none => .error .valueError
                  | some n =>
                      .ok (true, model_data.set index.row.toNat
                        (person.setFieldInt index.col.toNat n))
                else .ok (false, model_data)
              else
                .ok (true, model_data.set index.row.toNat
                  (person.setFieldStr index.col.toNat stripped))
    else .ok (false, model_data)
  else .ok (false, model_data)

end PeopleModel

namespace PeopleSortFilterModel

/-- Model of PeopleSortFilterModel.filterAcceptsRow: with a nonempty
stored filter string, look up the first-name cell of the source row
through the source model and accept exactly when its lowercased text
starts with the stored filter string; with an empty filter string
accept every row.  An ok none cell (Python None) would raise an
AttributeError at the .lower() call. -/
def filterAcceptsRow (model_data : List Person) (filter_string : String)
    (source_row : Int) : Except PyExc Bool :=
  if filter_string ≠ ("") then
    match PeopleModel.data model_data ⟨source_row, (PeopleModel.FIRST_NAME : Int)⟩
        DisplayRole with
    | .error e => .error e
    | .ok none => .error .attributeError
    | .ok (some first_name) =>
        .ok (pyStartsWith (pyLower first_name) filter_string)
  else .ok true

/-- Model of PeopleSortFilterModel.filterAcceptsColumn. -/
def filterAcceptsColumn (_source_column : Int) : Bool := true

/-- Model of PeopleSortFilterModel.set_filter_string: the stored
filter string is replaced by the argument. -/
def set_filter_string (user_filter : String) : String := user_filter

/-- Model of CustomWidget.handle_apply_people_filter: store the
lowercased text of the filter field. -/
def handle_apply_people_filter (field_text : String) : String :=
  set_filter_string (pyLower field_text)

/-- Model of PeopleSortFilterModel.lessThan: fetch both DisplayRole
strings from the source model (left first, as Python evaluates), then
compare with the default string less-than; comparing None raises a
TypeError in Python 3. -/
def lessThan (model_data : List Person) (source_left source_right : QModelIndex) :
    Except PyExc Bool :=
  match PeopleModel.data model_data source_left DisplayRole,
      PeopleModel.data model_data source_right DisplayRole with
  | .error e, _ => .error e
  | _, .error e => .error e
  | .ok (some l), .ok (some r) => .ok (pyStrLt l r)
  | _, _ => .error .typeError

end PeopleSortFilterModel

namespace WordPairModel

/-- Model of WordPairModel.rowCount (the parent argument is unused in
the source): the number of entries of the word-pair dict (dicts keep
insertion order in Python 3.7+, so the dict is an ordered list of
key-value pairs). -/
def rowCount (model_data : List (String × String)) : Nat := model_data.length

/-- Model of WordPairModel.columnCount: always 2. -/
def columnCount : Nat := 2

/-- Model of WordPairModel.data: for a valid index and the
DisplayRole, list(model_data.items())[row][col] is the key (col 0) or
the value (col 1) of the row-th pair; Python returns None otherwise.
Errors model the IndexError on out-of-range subscripts. -/
def data (model_data : List (String × String)) (index : QModelIndex) (role : Nat) :
    Except PyExc (Option String) :=
  if index.isValid model_data.length columnCount then
    if role = DisplayRole then
      match model_data[index.row.toNat]? with
      | none => .error .indexError
      | some pair =>
          if index.col.toNat = 0 then .ok (some pair.1)
          else if index.col.toNat = 1 then .ok (some pair.2)
          else .error .indexError
    else .ok none
  else .ok none

/-- Model of WordPairModel.headerData: row number for the vertical
header, the fixed column names for horizontal sections 0 and 1,
Python None otherwise. -/
def headerData (sect : Nat) (orientation : QtOrientation) (role : Nat) :
    Option String :=
  if role = DisplayRole then
    match orientation with
    | .vertical => some (toString sect)
    | .horizontal =>
        if sect = 0 then some ("First Word")
        else if sect = 1 then some ("Second Word")
        else none
  else none

/-- Model of WordPairModel.set_new_pair_data: the stored model data is
replaced wholesale by the argument (the model reset that follows has
no effect on the data itself). -/
def set_new_pair_data (user_data : List (String × String)) :
    List (String × String) := user_data

end WordPairModel

/-- The word_pairs dict hardcoded in CustomWidget.__init__ of
src/app_table_word_pairs.py, in insertion order. -/
def word_pairs : List (String × String) :=
  [(("fruit"), ("banana")), (("vegetable"), ("spinach")), (("animal"), ("dog")),
   (("mineral"), ("quartz")), (("nature"), ("neat")), (("plant"), ("tree")),
   (("yolk"), ("yellow")), (("pillows"), ("soft"))]

/-- The alternate_word_pairs dict hardcoded in CustomWidget.__init__
of src/app_table_word_pairs.py, in insertion order. -/
def alternate_word_pairs : List (String × String) :=
  [(("sun"), ("bright")), (("water"), ("wet")), (("rocks"), ("hard")),
   (("grass"), ("soft")), (("planes"), ("flying")), (("toast"), ("golden"))]

/-- The mutable state of the word-pair CustomWidget that
handle_swap_words touches: which dict current_word_pairs refers to,
and the word model's stored data.  The Python `is` identity test
against self.word_pairs is modelled by equality, which coincides with
identity on the reachable states because the two hardcoded dicts are
unequal. -/
structure WordTableState where
  current_word_pairs : List (String × String)
  word_model_data : List (String × String)
deriving DecidableEq, Repr

/-- The state right after CustomWidget.__init__: the original pairs
are current and displayed. -/
def initialWordTableState : WordTableState :=
  { current_word_pairs := word_pairs, word_model_data := word_pairs }

/-- Model of CustomWidget.handle_swap_words of
src/app_table_word_pairs.py: if the original dict is current, switch
current_word_pairs to the alternate dict and hand it wholesale to
set_new_pair_data; otherwise switch back to the original dict. -/
def handle_swap_words (s : WordTableState) : WordTableState :=
  if s.current_word_pairs = word_pairs then
    { current_word_pairs := alternate_word_pairs,
      word_model_data := WordPairModel.set_new_pair_data alternate_word_pairs }
  else
    { current_word_pairs := word_pairs,
      word_model_data := WordPairModel.set_new_pair_data word_pairs }

/-- Qt key code Qt.Key_0 (the codes Key_0 .. Key_9 are 0x30 .. 0x39). -/
def Key_0 : Nat := 48

/-- Qt key code Qt.Key_1. -/
def Key_1 : Nat := 49

/-- Qt key code Qt.Key_2. -/
def Key_2 : Nat := 50

/-- Qt key code Qt.Key_3. -/
def Key_3 : Nat := 51

/-- Qt key code Qt.Key_4. -/
def Key_4 : Nat := 52

/-- Qt key code Qt.Key_5. -/
def Key_5 : Nat := 53

/-- Qt key code Qt.Key_6. -/
def Key_6 : Nat := 54

/-- Qt key code Qt.Key_7. -/
def Key_7 : Nat := 55

/-- Qt key code Qt.Key_8. -/
def Key_8 : Nat := 56

/-- Qt key code Qt.Key_9. -/
def Key_9 : Nat := 57

/-- Qt key code Qt.Key_Tab = 0x01000001. -/
def Key_Tab : Nat := 16777217

/-- Qt key code Qt.Key_Backspace = 0x01000003. -/
def Key_Backspace : Nat := 16777219

/-- Qt key code Qt.Key_Return = 0x01000004. -/
def Key_Return : Nat := 16777220

/-- Qt key code Qt.Key_Enter = 0x01000005. -/
def Key_Enter : Nat := 16777221

/-- Qt key code Qt.Key_Delete = 0x01000007. -/
def Key_Delete : Nat := 16777223

/-- The accepted_keys set built inside PeopleFieldEditor.keyPressEvent:
the ten digit keys and Return, Enter, Tab, Delete, Backspace. -/
def accepted_keys : List Nat :=
  [Key_0, Key_1, Key_2, Key_3, Key_4, Key_5, Key_6, Key_7, Key_8, Key_9,
   Key_Return, Key_Enter, Key_Tab, Key_Delete, Key_Backspace]

/-- Outcome of one PeopleFieldEditor.keyPressEvent call: whether the
event was forwarded to the base QLineEdit handling
(super().keyPressEvent), and the accept flag this handler itself left
on the event before any base handling. -/
structure KeyPressResult where
  forwarded : Bool
  accepted : Bool
deriving DecidableEq, Repr

namespace PeopleFieldEditor

/-- Model of PeopleFieldEditor.keyPressEvent of
src/app_table_people.py for an editor created for the given column:
on the numeric columns (AGE and HEIGHT_MM) the event is first
accepted (consumed) and only keys of accepted_keys are un-ignored and
forwarded to the base class; on every other column the event is
ignored and forwarded unconditionally. -/
def keyPressEvent (column : Nat) (key : Nat) : KeyPressResult :=
  if column = PeopleModel.AGE ∨ column = PeopleModel.HEIGHT_MM then
    if key ∈ accepted_keys then { forwarded := true, accepted := false }
    else { forwarded := false, accepted := true }
  else { forwarded := true, accepted := false }

end PeopleFieldEditor

/-- One of the hardcoded Person records of CustomWidget.__init__ in
src/app_table_people.py, used as a concrete test subject. -/
def demoPerson : Person :=
  { first := ("Megan"), middle := ("Rose"), last := ("Rust"),
    age := 11, height_mm := 180 }

/-- Another hardcoded Person record of CustomWidget.__init__ in
src/app_table_people.py. -/
def demoPerson2 : Person :=
  { first := ("Alice"), middle := ("Lee"), last := ("Smith"),
    age := 33, height_mm := 181 }

lemma isValid_bounds (idx : QModelIndex) (rows cols : Nat)
    (h : idx.isValid rows cols = true) :
    idx.row.toNat < rows ∧ idx.col.toNat < cols := by
  unfold QModelIndex.isValid at h
  simp only [Bool.and_eq_true, decide_eq_true_eq] at h
  omega

lemma natIndex_isValid (row col rows cols : Nat) (hr : row < rows) (hc : col < cols) :
    (⟨(row : Int), (col : Int)⟩ : QModelIndex).isValid rows cols = true := by
  unfold QModelIndex.isValid
  simp only [Bool.and_eq_true, decide_eq_true_eq]
  omega

lemma peopleData_eval (people : List Person) (row c : Nat) (h : row < people.length)
    (v : FieldVal) (hv : (people.get ⟨row, h⟩).getField c = some v) (hc : c < 5) :
    PeopleModel.data people ⟨(row : Int), (c : Int)⟩ DisplayRole = .ok (some (pyStr v)) := by
  unfold PeopleModel.data
  rw [if_pos (natIndex_isValid row c people.length PeopleModel.columnCount h hc),
    if_pos rfl]
  simp only [Int.toNat_natCast]
  rw [List.getElem?_eq_getElem h]
  rw [List.get_eq_getElem] at hv
  have hc5 : c = 0 ∨ c = 1 ∨ c = 2 ∨ c = 3 ∨ c = 4 := by omega
  rcases hc5 with h0 | h0 | h0 | h0 | h0 <;> subst h0 <;>
    simp only [Person.getField] at hv <;> simp at hv <;> subst hv <;>
    simp [PeopleModel.attrib_key, Person.getattr]

/-- Claim C1 counterexample: for a path naming an existing file whose
read raises, BackendObject.pronk does not return the empty string (it
falls off the end of the except handler and returns Python None). -/
theorem C1_counterexample :
    ¬ ((pronk { fileExists := true, readBytes := .error .ioError }
        ("somefile")).1 = some ("")) := by
  decide

/-- Claim C1 (amended): for every path naming an existing file whose
read raises an exception, BackendObject.pronk catches the exception
generically (whatever its kind), prints a traceback and a
human-readable message to the console, and returns None to the caller
rather than propagating the fault. -/
theorem C1_pronk_read_failure (path : String) (e : PyExc) :
    pronk { fileExists := true, readBytes := .error e } path =
      (none, [ConsoleMsg.received (stripFileScheme path), ConsoleMsg.traceback,
        ConsoleMsg.couldNotRead]) := by
  rfl

/-- Claim C5: for every existing, readable file, BackendObject.pronk
returns exactly the first 64 characters of the hexadecimal encoding
of the file's bytes, the entire encoding when it is shorter than 64
characters, and the returned string never exceeds 64 characters. -/
theorem C5_pronk_hex_truncation (fs : FileSystem) (path : String) (bytes : List Nat)
    (hex : fs.fileExists = true) (hread : fs.readBytes = .ok bytes) :
    (pronk fs path).1 = some (String.mk ((bytesHexChars bytes).take 64)) ∧
    (∀ s, (pronk fs path).1 = some s → s.length ≤ 64) ∧
    ((bytesHexChars bytes).length ≤ 64 →
      (pronk fs path).1 = some (String.mk (bytesHexChars bytes))) := by
  obtain ⟨fe, rb⟩ := fs
  simp only at hex hread
  subst hex
  subst hread
  refine ⟨rfl, ?_, ?_⟩
  · intro s hs
    have : s = String.mk ((bytesHexChars bytes).take 64) := by
      simpa [pronk] using hs.symm
    subst this
    show ((bytesHexChars bytes).take 64).length ≤ 64
    simp [List.length_take]
  · intro hlen
    simp [pronk, List.take_of_length_le hlen]

/-- Claim C5 witness: on a two-byte file the whole four-character hex
string is returned. -/
theorem C5_witness :
    (pronk { fileExists := true, readBytes := .ok [171, 205] } ("f")).1 =
      some ("abcd") := by
  have h := C5_pronk_hex_truncation
    { fileExists := true, readBytes := .ok [171, 205] } ("f") [171, 205] rfl rfl
  exact h.1.trans (by decide)

/-- Claim C6: CustomWidget.handle_swap_words toggles between exactly
the two fixed, hardcoded word-pair mappings: each invocation sets
current_word_pairs to the other mapping and passes that mapping
wholesale to WordPairModel.set_new_pair_data; two consecutive
invocations restore the original mapping, and current_word_pairs is
always one of the two mappings. -/
theorem C6_handle_swap_words_toggle (s : WordTableState)
    (h : s.current_word_pairs = word_pairs ∨
      s.current_word_pairs = alternate_word_pairs) :
    ((handle_swap_words s).current_word_pairs =
      if s.current_word_pairs = word_pairs then alternate_word_pairs
      else word_pairs) ∧
    (handle_swap_words s).word_model_data =
      WordPairModel.set_new_pair_data (handle_swap_words s).current_word_pairs ∧
    (handle_swap_words (handle_swap_words s)).current_word_pairs =
      s.current_word_pairs ∧
    ((handle_swap_words s).current_word_pairs = word_pairs ∨
      (handle_swap_words s).current_word_pairs = alternate_word_pairs) := by
  have hne : alternate_word_pairs ≠ word_pairs := by decide
  rcases h with h | h <;>
    simp [handle_swap_words, WordPairModel.set_new_pair_data, h, hne]

/-- Claim C6 witness: from the initial state, one swap shows the
alternate mapping and a second swap restores the original one. -/
theorem C6_witness :
    (handle_swap_words initialWordTableState).current_word_pairs =
      alternate_word_pairs ∧
    (handle_swap_words (handle_swap_words initialWordTableState)).current_word_pairs =
      word_pairs := by
  have h := C6_handle_swap_words_toggle initialWordTableState (Or.inl rfl)
  refine ⟨h.1.trans (by decide), h.2.2.1⟩

/-- Claim C7: WordPairModel.rowCount is the number of word pairs and
its columnCount is 2; PeopleModel.rowCount is the number of Person
records and its columnCount is 5; the horizontal header labels are
the fixed strings First Word / Second Word and First Name / Middle
Name / Last Name / Age / Height (mm). -/
theorem C7_counts_and_headers :
    (∀ md : List (String × String), WordPairModel.rowCount md = md.length) ∧
    WordPairModel.columnCount = 2 ∧
    (∀ people : List Person, PeopleModel.rowCount people = people.length) ∧
    PeopleModel.columnCount = 5 ∧
    WordPairModel.headerData 0 .horizontal DisplayRole = some ("First Word") ∧
    WordPairModel.headerData 1 .horizontal DisplayRole = some ("Second Word") ∧
    PeopleModel.headerData 0 .horizontal DisplayRole = .ok (some ("First Name")) ∧
    PeopleModel.headerData 1 .horizontal DisplayRole = .ok (some ("Middle Name")) ∧
    PeopleModel.headerData 2 .horizontal DisplayRole = .ok (some ("Last Name")) ∧
    PeopleModel.headerData 3 .horizontal DisplayRole = .ok (some ("Age")) ∧
    PeopleModel.headerData 4 .horizontal DisplayRole = .ok (some ("Height (mm)")) := by
  refine ⟨fun md => rfl, rfl, fun people => rfl, rfl, ?_, ?_, ?_, ?_, ?_, ?_, ?_⟩ <;>
    decide

/-- Claim C8: for a PeopleFieldEditor attached to the Age or Height
column, a keypress is forwarded to the underlying line-edit handling
if and only if its key is one of the ten digit keys or Return, Enter,
Tab, Delete, Backspace; on the numeric columns every other key is
consumed (left accepted, not forwarded); for any other column every
keypress is forwarded. -/
theorem C8_keyPressEvent_forwarding (column key : Nat) :
    ((column = PeopleModel.AGE ∨ column = PeopleModel.HEIGHT_MM) →
      ((PeopleFieldEditor.keyPressEvent column key).forwarded = true ↔
        key ∈ accepted_keys) ∧
      (key ∉ accepted_keys →
        PeopleFieldEditor.keyPressEvent column key =
          { forwarded := false, accepted := true })) ∧
    (¬(column = PeopleModel.AGE ∨ column = PeopleModel.HEIGHT_MM) →
      (PeopleFieldEditor.keyPressEvent column key).forwarded = true) := by
  constructor
  · intro h
    constructor
    · by_cases hk : key ∈ accepted_keys <;>
        simp [PeopleFieldEditor.keyPressEvent, h, hk]
    · intro hk
      simp [PeopleFieldEditor.keyPressEvent, h, hk]
  · intro h
    simp [PeopleFieldEditor.keyPressEvent, h]

/-- Claim C8 witness: on the Age column the digit key 5 is forwarded
and the key code of letter A (65) is consumed; on the first-name
column the letter key is forwarded. -/
theorem C8_witness :
    (PeopleFieldEditor.keyPressEvent 3 Key_5).forwarded = true ∧
    PeopleFieldEditor.keyPressEvent 3 65 =
      { forwarded := false, accepted := true } ∧
    (PeopleFieldEditor.keyPressEvent 0 65).forwarded = true := by
  have h1 := (C8_keyPressEvent_forwarding 3 Key_5).1 (Or.inl rfl)
  have h2 := (C8_keyPressEvent_forwarding 3 65).1 (Or.inl rfl)
  have h3 := (C8_keyPressEvent_forwarding 0 65).2 (by decide)
  exact ⟨h1.1.mpr (by decide), h2.2 (by decide), h3⟩

lemma peopleData_valid_display (people : List Person) (idx : QModelIndex)
    (hv : idx.isValid people.length PeopleModel.columnCount = true) :
    ∃ s, PeopleModel.data people idx DisplayRole = .ok (some s) := by
  obtain ⟨hr, hc⟩ := isValid_bounds idx _ _ hv
  unfold PeopleModel.data
  rw [if_pos hv, if_pos rfl, List.getElem?_eq_getElem hr]
  have hc5 : idx.col.toNat < 5 := hc
  have h5 : idx.col.toNat = 0 ∨ idx.col.toNat = 1 ∨ idx.col.toNat = 2 ∨
      idx.col.toNat = 3 ∨ idx.col.toNat = 4 := by omega
  rcases h5 with h0 | h0 | h0 | h0 | h0 <;> rw [h0] <;>
    simp [PeopleModel.attrib_key, Person.getattr]

lemma peopleData_not_display (people : List Person) (idx : QModelIndex) (role : Nat)
    (h : ¬ idx.isValid people.length PeopleModel.columnCount = true ∨
      role ≠ DisplayRole) :
    PeopleModel.data people idx role = .ok none := by
  unfold PeopleModel.data
  by_cases hv : idx.isValid people.length PeopleModel.columnCount = true
  · rcases h with h | h
    · exact absurd hv h
    · rw [if_pos hv, if_neg h]
  · rw [if_neg hv]

lemma wordData_valid_display (md : List (String × String)) (idx : QModelIndex)
    (hv : idx.isValid md.length WordPairModel.columnCount = true) :
    ∃ s, WordPairModel.data md idx DisplayRole = .ok (some s) := by
  obtain ⟨hr, hc⟩ := isValid_bounds idx _ _ hv
  unfold WordPairModel.data
  rw [if_pos hv, if_pos rfl, List.getElem?_eq_getElem hr]
  have hc2 : idx.col.toNat < 2 := hc
  have h2 : idx.col.toNat = 0 ∨ idx.col.toNat = 1 := by omega
  rcases h2 with h0 | h0 <;> rw [h0] <;> simp

lemma wordData_not_display (md : List (String × String)) (idx : QModelIndex)
    (role : Nat)
    (h : ¬ idx.isValid md.length WordPairModel.columnCount = true ∨
      role ≠ DisplayRole) :
    WordPairModel.data md idx role = .ok none := by
  unfold WordPairModel.data
  by_cases hv : idx.isValid md.length WordPairModel.columnCount = true
  · rcases h with h | h
    · exact absurd hv h
    · rw [if_pos hv, if_neg h]
  · rw [if_neg hv]

/-- Claim C10: for every index and role, PeopleModel.data and
WordPairModel.data return None and do not raise whenever the index is
invalid or the role is not DisplayRole, and a non-None value is
returned only for a valid index queried with DisplayRole. -/
theorem C10_data_none_and_no_raise (people : List Person)
    (md : List (String × String)) (idx : QModelIndex) (role : Nat) :
    ((¬ idx.isValid people.length PeopleModel.columnCount = true ∨
        role ≠ DisplayRole) → PeopleModel.data people idx role = .ok none) ∧
    (∀ e, PeopleModel.data people idx role ≠ .error e) ∧
    (∀ s, PeopleModel.data people idx role = .ok (some s) →
      idx.isValid people.length PeopleModel.columnCount = true ∧
        role = DisplayRole) ∧
    ((¬ idx.isValid md.length WordPairModel.columnCount = true ∨
        role ≠ DisplayRole) → WordPairModel.data md idx role = .ok none) ∧
    (∀ e, WordPairModel.data md idx role ≠ .error e) ∧
    (∀ s, WordPairModel.data md idx role = .ok (some s) →
      idx.isValid md.length WordPairModel.columnCount = true ∧
        role = DisplayRole) := by
  refine ⟨fun h => peopleData_not_display people idx role h, ?_, ?_,
    fun h => wordData_not_display md idx role h, ?_, ?_⟩
  · intro e he
    by_cases hv : idx.isValid people.length PeopleModel.columnCount = true
    · by_cases hrole : role = DisplayRole
      · subst hrole
        obtain ⟨s, hs⟩ := peopleData_valid_display people idx hv
        rw [hs] at he
        exact absurd he (by simp)
      · rw [peopleData_not_display people idx role (Or.inr hrole)] at he
        exact absurd he (by simp)
    · rw [peopleData_not_display people idx role (Or.inl hv)] at he
      exact absurd he (by simp)
  · intro s hsome
    by_cases hv : idx.isValid people.length PeopleModel.columnCount = true
    · by_cases hrole : role = DisplayRole
      · exact ⟨hv, hrole⟩
      · rw [peopleData_not_display people idx role (Or.inr hrole)] at hsome
        exact absurd hsome (by simp)
    · rw [peopleData_not_display people idx role (Or.inl hv)] at hsome
      exact absurd hsome (by simp)
  · intro e he
    by_cases hv : idx.isValid md.length WordPairModel.columnCount = true
    · by_cases hrole : role = DisplayRole
      · subst hrole
        obtain ⟨s, hs⟩ := wordData_valid_display md idx hv
        rw [hs] at he
        exact absurd he (by simp)
      · rw [wordData_not_display md idx role (Or.inr hrole)] at he
        exact absurd he (by simp)
    · rw [wordData_not_display md idx role (Or.inl hv)] at he
      exact absurd he (by simp)
  · intro s hsome
    by_cases hv : idx.isValid md.length WordPairModel.columnCount = true
    · by_cases hrole : role = DisplayRole
      · exact ⟨hv, hrole⟩
      · rw [wordData_not_display md idx role (Or.inr hrole)] at hsome
        exact absurd hsome (by simp)
    · rw [wordData_not_display md idx role (Or.inl hv)] at hsome
      exact absurd hsome (by simp)

/-- Claim C10 witness: on a concrete one-person, one-pair model, the
null index yields None for both models and a decoration-role query on
a valid cell yields None as well. -/
theorem C10_witness :
    PeopleModel.data [demoPerson] ⟨-1, -1⟩ DisplayRole = .ok none ∧
    PeopleModel.data [demoPerson] ⟨0, 0⟩ 1 = .ok none ∧
    WordPairModel.data word_pairs ⟨-1, -1⟩ DisplayRole = .ok none ∧
    WordPairModel.data word_pairs ⟨0, 0⟩ 1 = .ok none := by
  refine ⟨(C10_data_none_and_no_raise [demoPerson] word_pairs ⟨-1, -1⟩
      DisplayRole).1 (Or.inl (by decide)),
    (C10_data_none_and_no_raise [demoPerson] word_pairs ⟨0, 0⟩ 1).1
      (Or.inr (by decide)),
    (C10_data_none_and_no_raise [demoPerson] word_pairs ⟨-1, -1⟩
      DisplayRole).2.2.2.1 (Or.inl (by decide)),
    (C10_data_none_and_no_raise [demoPerson] word_pairs ⟨0, 0⟩ 1).2.2.2.1
      (Or.inr (by decide))⟩

/-- Claim C3: for every filter applied via the Filter People button
with field text t, filterAcceptsRow accepts a source row exactly when
the row's first name, lowercased, starts with t lowercased; with an
empty stored filter string every row is accepted. -/
theorem C3_filter_prefix_match (people : List Person) (t : String) (row : Nat)
    (h : row < people.length) :
    PeopleSortFilterModel.filterAcceptsRow people
        (PeopleSortFilterModel.handle_apply_people_filter t) (row : Int) =
      .ok (pyStartsWith (pyLower (people.get ⟨row, h⟩).first) (pyLower t)) ∧
    PeopleSortFilterModel.filterAcceptsRow people ("") (row : Int) = .ok true := by
  have hdata := peopleData_eval people row PeopleModel.FIRST_NAME h
    (.str (people.get ⟨row, h⟩).first) rfl (by decide)
  constructor
  · unfold PeopleSortFilterModel.filterAcceptsRow
      PeopleSortFilterModel.handle_apply_people_filter
      PeopleSortFilterModel.set_filter_string
    by_cases ht : pyLower t = ("")
    · rw [if_neg (by simp [ht])]
      rw [ht]
      simp [pyStartsWith]
    · rw [if_pos ht, hdata]
      rfl
  · unfold PeopleSortFilterModel.filterAcceptsRow
    simp

/-- Claim C3 witness: the uppercase filter text ME accepts the row of
first name Megan, and the empty filter accepts it too. -/
theorem C3_witness :
    PeopleSortFilterModel.filterAcceptsRow [demoPerson]
        (PeopleSortFilterModel.handle_apply_people_filter ("ME")) 0 = .ok true ∧
    PeopleSortFilterModel.filterAcceptsRow [demoPerson] ("") 0 = .ok true := by
  have h := C3_filter_prefix_match [demoPerson] ("ME") 0 (by decide)
  exact ⟨h.1.trans (by decide), h.2⟩

/-- Claim C4: PeopleSortFilterModel.lessThan returns the default
string less-than of the two cells' DisplayRole strings, for every
column; on the Age and Height columns those display strings are the
decimal renderings of the stored integers. -/
theorem C4_lessThan_lexicographic (people : List Person) (l r : QModelIndex)
    (a b : String)
    (hl : PeopleModel.data people l DisplayRole = .ok (some a))
    (hr : PeopleModel.data people r DisplayRole = .ok (some b)) :
    PeopleSortFilterModel.lessThan people l r = .ok (pyStrLt a b) ∧
    (∀ row : Nat, ∀ hrow : row < people.length,
      PeopleModel.data people ⟨(row : Int), (PeopleModel.AGE : Int)⟩
          DisplayRole =
        .ok (some (pyStrOfInt (people.get ⟨row, hrow⟩).age)) ∧
      PeopleModel.data people ⟨(row : Int), (PeopleModel.HEIGHT_MM : Int)⟩
          DisplayRole =
        .ok (some (pyStrOfInt (people.get ⟨row, hrow⟩).height_mm))) := by
  constructor
  · unfold PeopleSortFilterModel.lessThan
    rw [hl, hr]
  · intro row hrow
    exact ⟨peopleData_eval people row PeopleModel.AGE hrow
        (.int (people.get ⟨row, hrow⟩).age) rfl (by decide),
      peopleData_eval people row PeopleModel.HEIGHT_MM hrow
        (.int (people.get ⟨row, hrow⟩).height_mm) rfl (by decide)⟩

/-- Claim C4 witness: sorting compares the Age cells 33 and 11 as the
strings 33 and 11, so the numerically larger 33 does not sort below
11 lexicographically either way round, giving a concrete false. -/
theorem C4_witness :
    PeopleSortFilterModel.lessThan [demoPerson2, demoPerson] ⟨0, 3⟩ ⟨1, 3⟩ =
      .ok false := by
  have h := C4_lessThan_lexicographic [demoPerson2, demoPerson] ⟨0, 3⟩ ⟨1, 3⟩
    ("33") ("11") (by decide) (by decide)
  exact h.1.trans (by decide)

lemma pyIntTail_of_all_digits (l : List Char) (h : l.all Char.isDigit = true) :
    pyIntTail l = true := by
  induction l with
  | nil => rfl
  | cons c rest ih =>
    simp only [List.all_cons, Bool.and_eq_true] at h
    have hc : c ≠ '_' := by
      intro he
      subst he
      exact absurd h.1 (by decide)
    unfold pyIntTail
    rw [if_neg hc, h.1, ih h.2]
    rfl

lemma pyIntParse_digit_head (c : Char) (rest : List Char) (s : String)
    (hd : s.data = c :: rest) (hc : c.isDigit = true) (ht : pyIntTail rest = true) :
    pyIntParse s = some ((pyDigitsValue (c :: rest) 0 : Nat) : Int) := by
  have hplus : c ≠ '+' := by
    intro he
    subst he
    exact absurd hc (by decide)
  have hminus : c ≠ '-' := by
    intro he
    subst he
    exact absurd hc (by decide)
  unfold pyIntParse
  rw [hd]
  split
  · rename_i heq
    exact absurd (List.head_eq_of_cons_eq heq) hplus
  · rename_i heq
    exact absurd (List.head_eq_of_cons_eq heq) hminus
  · simp [pyIntCore, hc, ht]

lemma digitOnly_parses (s : String) (h : digitOnly s = true) :
    reMatchDigits s = true ∧ ∃ n, pyIntParse s = some n := by
  unfold digitOnly at h
  simp only [Bool.and_eq_true, Bool.not_eq_true', List.all_eq_true] at h
  obtain ⟨hne, hall⟩ := h
  cases hd : s.data with
  | nil =>
    rw [hd] at hne
    simp at hne
  | cons c rest =>
    have hc : c.isDigit = true := hall c (by rw [hd]; exact List.mem_cons_self c rest)
    have hrest : rest.all Char.isDigit = true := by
      rw [List.all_eq_true]
      intro d hdmem
      exact hall d (by rw [hd]; exact List.mem_cons_of_mem c hdmem)
    refine ⟨?_, ⟨_, pyIntParse_digit_head c rest s hd hc
      (pyIntTail_of_all_digits rest hrest)⟩⟩
    unfold reMatchDigits
    rw [hd]
    exact hc

/-- Claim C2 counterexample: the stripped value 12x is not digit-only,
yet PeopleModel.setData on the Age column of a valid index does not
return False and leave the record unchanged: the anchored regex
prefix-match [0-9]+ succeeds on 12x, int raises, and a ValueError
escapes the call. -/
theorem C2_counterexample :
    digitOnly (pyStrip ("12x")) = false ∧
    PeopleModel.setData [demoPerson] ⟨0, 3⟩ ("12x") DisplayRole =
      .error .valueError := by
  constructor
  · decide
  · decide

/-- Claim C2 (amended): on the Age or Height column of a valid index,
the stripped input is converted with int and assigned if and only if
it is a valid Python int literal beginning with a digit; when the
stripped input does not begin with a digit, setData returns False and
the Person is unchanged; when it begins with a digit but int fails, a
ValueError propagates; every digit-only input is accepted and
assigned. -/
theorem C2_setData_numeric_amended (people : List Person) (idx : QModelIndex)
    (value : String) (person : Person)
    (hv : idx.isValid people.length PeopleModel.columnCount = true)
    (hcol : idx.col.toNat = PeopleModel.AGE ∨ idx.col.toNat = PeopleModel.HEIGHT_MM)
    (hp : people[idx.row.toNat]? = some person) :
    (reMatchDigits (pyStrip value) = false →
      PeopleModel.setData people idx value DisplayRole = .ok (false, people)) ∧
    (∀ n, reMatchDigits (pyStrip value) = true →
      pyIntParse (pyStrip value) = some n →
      PeopleModel.setData people idx value DisplayRole =
        .ok (true, people.set idx.row.toNat
          (person.setFieldInt idx.col.toNat n))) ∧
    (reMatchDigits (pyStrip value) = true →
      pyIntParse (pyStrip value) = none →
      PeopleModel.setData people idx value DisplayRole = .error .valueError) ∧
    (digitOnly (pyStrip value) = true →
      reMatchDigits (pyStrip value) = true ∧
        ∃ n, pyIntParse (pyStrip value) = some n) := by
  have hred : PeopleModel.setData people idx value DisplayRole =
      (if reMatchDigits (pyStrip value) then
        match pyIntParse (pyStrip value) with
        | none => .error .valueError
        | some n =>
            .ok (true, people.set idx.row.toNat
              (person.setFieldInt idx.col.toNat n))
      else .ok (false, people)) := by
    unfold PeopleModel.setData
    rw [if_pos hv, if_pos rfl, hp]
    rcases hcol with hc | hc <;> rw [hc] <;>
      simp [PeopleModel.attrib_key, PeopleModel.AGE, PeopleModel.HEIGHT_MM]
  refine ⟨?_, ?_, ?_, fun hdo => digitOnly_parses _ hdo⟩
  · intro hm
    rw [hred, if_neg (by simp [hm])]
  · intro n hre hparse
    rw [hred, if_pos hre, hparse]
  · intro hre hparse
    rw [hred, if_pos hre, hparse]

/-- Claim C2 witness: the digit-only input 42 with surrounding
whitespace is stripped, converted and assigned on the Age column. -/
theorem C2_amended_witness :
    PeopleModel.setData [demoPerson] ⟨0, 3⟩ (" 42 ") DisplayRole =
      .ok (true, [{ demoPerson with age := 42 }]) := by
  have h := C2_setData_numeric_amended [demoPerson] ⟨0, 3⟩ (" 42 ") demoPerson
    (by decide) (Or.inl (by decide)) (by decide)
  have h2 := h.2.1 42 (by decide) (by decide)
  exact h2.trans (by decide)

lemma getField_setFieldInt_ne (p : Person) (col c : Nat) (n : Int) (h : c ≠ col) :
    (p.setFieldInt col n).getField c = p.getField c := by
  unfold Person.setFieldInt Person.getField
  split_ifs <;> simp_all

lemma getField_setFieldStr_ne (p : Person) (col c : Nat) (s : String) (h : c ≠ col) :
    (p.setFieldStr col s).getField c = p.getField c := by
  unfold Person.setFieldStr Person.getField
  split_ifs <;> simp_all

lemma frame_goal (people : List Person) (rowN colN : Nat) (q pers : Person)
    (hr : rowN < people.length)
    (hget : people[rowN]? = some pers)
    (hq : ∀ c, c ≠ colN → q.getField c = pers.getField c) :
    (people.set rowN q).length = people.length ∧
    (∀ j, j ≠ rowN → (people.set rowN q)[j]? = people[j]?) ∧
    (∀ p p2, people[rowN]? = some p → (people.set rowN q)[rowN]? = some p2 →
      ∀ c, c ≠ colN → p2.getField c = p.getField c) := by
  refine ⟨List.length_set people rowN q, ?_, ?_⟩
  · intro j hj
    exact List.getElem?_set_ne (Ne.symm hj)
  · intro p p2 hp hp2
    rw [hget] at hp
    injection hp with hpe
    rw [List.getElem?_set_self hr] at hp2
    injection hp2 with hp2e
    intro c hcn
    rw [← hp2e, ← hpe]
    exact hq c hcn

/-- Claim C9: every successful PeopleModel.setData call on (row, col)
mutates only the attribute of the Person at position row that
corresponds to column col: the sequence keeps its length, every other
position is unchanged, and every other attribute of the edited Person
is unchanged. -/
theorem C9_setData_frame (people people' : List Person) (idx : QModelIndex)
    (value : String) (role : Nat)
    (h : PeopleModel.setData people idx value role = .ok (true, people')) :
    people'.length = people.length ∧
    (∀ j, j ≠ idx.row.toNat → people'[j]? = people[j]?) ∧
    (∀ p q, people[idx.row.toNat]? = some p →
      people'[idx.row.toNat]? = some q →
      ∀ c, c ≠ idx.col.toNat → q.getField c = p.getField c) := by
  by_cases hv : idx.isValid people.length PeopleModel.columnCount = true
  · by_cases hrole : role = DisplayRole
    · obtain ⟨hr, hc⟩ := isValid_bounds idx _ _ hv
      have hget := List.getElem?_eq_getElem hr
      unfold PeopleModel.setData at h
      rw [if_pos hv, if_pos hrole, hget] at h
      have hc5 : idx.col.toNat < 5 := hc
      have h5 : idx.col.toNat = 0 ∨ idx.col.toNat = 1 ∨ idx.col.toNat = 2 ∨
          idx.col.toNat = 3 ∨ idx.col.toNat = 4 := by omega
      rcases h5 with h0 | h0 | h0 | h0 | h0 <;> rw [h0] at h ⊢ <;>
        simp only [PeopleModel.attrib_key, PeopleModel.AGE,
          PeopleModel.HEIGHT_MM] at h <;> simp at h
      · rw [← h]
        exact frame_goal people idx.row.toNat 0 _ _ hr hget
          (fun c hcn => getField_setFieldStr_ne _ 0 c _ hcn)
      · rw [← h]
        exact frame_goal people idx.row.toNat 1 _ _ hr hget
          (fun c hcn => getField_setFieldStr_ne _ 1 c _ hcn)
      · rw [← h]
        exact frame_goal people idx.row.toNat 2 _ _ hr hget
          (fun c hcn => getField_setFieldStr_ne _ 2 c _ hcn)
      · by_cases hre : reMatchDigits (pyStrip value) = true
        · rw [if_pos hre] at h
          cases hparse : pyIntParse (pyStrip value) with
          | none =>
            rw [hparse] at h
            simp at h
          | some n =>
            rw [hparse] at h
            simp at h
            rw [← h]
            exact frame_goal people idx.row.toNat 3 _ _ hr hget
              (fun c hcn => getField_setFieldInt_ne _ 3 c n hcn)
        · rw [if_neg hre] at h
          simp at h
      · by_cases hre : reMatchDigits (pyStrip value) = true
        · rw [if_pos hre] at h
          cases hparse : pyIntParse (pyStrip value) with
          | none =>
            rw [hparse] at h
            simp at h
          | some n =>
            rw [hparse] at h
            simp at h
            rw [← h]
            exact frame_goal people idx.row.toNat 4 _ _ hr hget
              (fun c hcn => getField_setFieldInt_ne _ 4 c n hcn)
        · rw [if_neg hre] at h
          simp at h
    · unfold PeopleModel.setData at h
      rw [if_pos hv, if_neg hrole] at h
      simp at h
  · unfold PeopleModel.setData at h
    rw [if_neg hv] at h
    simp at h

/-- Claim C9 witness: editing the first-name cell of the second person
changes only that attribute, leaves the first person alone and keeps
the length at two. -/
theorem C9_witness :
    (PeopleModel.setData [demoPerson2, demoPerson] ⟨1, 0⟩ ("Zed") DisplayRole =
      .ok (true, [demoPerson2, { demoPerson with first := ("Zed") }])) ∧
    ([demoPerson2, { demoPerson with first := ("Zed") }] : List Person).length =
      ([demoPerson2, demoPerson] : List Person).length ∧
    ([demoPerson2, { demoPerson with first := ("Zed") }] : List Person)[0]? =
      ([demoPerson2, demoPerson] : List Person)[0]? := by
  have hcall : PeopleModel.setData [demoPerson2, demoPerson] ⟨1, 0⟩ ("Zed")
      DisplayRole =
      .ok (true, [demoPerson2, { demoPerson with first := ("Zed") }]) := by
    decide
  have h := C9_setData_frame [demoPerson2, demoPerson]
    [demoPerson2, { demoPerson with first := ("Zed") }] ⟨1, 0⟩ ("Zed")
    DisplayRole hcall
  exact ⟨hcall, h.1, h.2.1 0 (by decide)⟩
